import Mathlib

/-!
Verification development for the Lab-4/Lab-5 patient-database HTTP gateway
(two-server MySQL lab).  The repository holds one polished backend (the
`server2/server.js` plain version and its class-based restructuring with
`DatabaseService` / `SqlGuard` / `ResponseHelper` / `Router`) and an older
`server.js` that contains two legacy drafts of the same API.

This file shallowly embeds the request-dispatch and SQL-safety layer:

* JS string primitives (`trim`, `toLowerCase`, `toUpperCase`, `includes`,
  `startsWith`, `decodeURIComponent`) are modelled over `List Char`.
  `Char.toLower`/`Char.toUpper` only fold ASCII letters, matching the
  ASCII SQL domain of the lab.
* The database driver is modelled as an oracle (`DbOracle`) whose fields
  give the outcome of connecting and of each statement; handlers return
  the HTTP outcome together with the list of connection/statement events
  they performed, so resource and credential usage can be stated.
* MySQL semantics for the statements the server actually issues are
  modelled by `applyEvent`: the bulk `INSERT ... VALUES` appends its rows
  (it has no upsert/dedup clause), `CREATE TABLE IF NOT EXISTS` and
  `SELECT` leave the row set unchanged.
-/

namespace Lab4

/- ── JS string primitives ──────────────────────────────────────────────── -/

/-- Whitespace recognised by JS `String.prototype.trim` (ASCII part plus
NBSP/BOM; the exotic Unicode space separators do not occur in this lab). -/
def isJsWhitespace (c : Char) : Bool :=
  c = ' ' || c = '\t' || c = '\n' || c = '\r' || c = '\x0b' || c = '\x0c' ||
  c = '\u00A0' || c = '\uFEFF'

/-- JS `s.trim()`: drop whitespace from both ends. -/
def trimL (l : List Char) : List Char :=
  ((l.dropWhile isJsWhitespace).reverse.dropWhile isJsWhitespace).reverse

/-- JS `s.toLowerCase()` on the ASCII range. -/
def lowerL (l : List Char) : List Char := l.map Char.toLower

/-- JS `s.toUpperCase()` on the ASCII range. -/
def upperL (l : List Char) : List Char := l.map Char.toUpper

/-- JS `hay.includes(pat)`: substring (not token) containment. -/
def containsL : List Char → List Char → Bool
  | [], pat => pat.isEmpty
  | c :: t, pat => pat.isPrefixOf (c :: t) || containsL t pat

/-- JS `s.startsWith(pre)`. -/
def jsStartsWith (s pre : String) : Bool := pre.data.isPrefixOf s.data

/- ── JS runtime errors ─────────────────────────────────────────────────── -/

/-- The JS exceptions that the modelled code can raise or receive. -/
inductive JsErr where
  | typeError (msg : String)
  | uriError (msg : String)
  | dbError (msg : String)
deriving DecidableEq

/-- JS `err.message`. -/
def JsErr.message : JsErr → String
  | .typeError m => m
  | .uriError m => m
  | .dbError m => m

/- ── decodeURIComponent ─────────────────────────────────────────────────── -/

/-- Value of one hexadecimal digit (`0-9`, `A-F`, `a-f`), working on the
character's code point. -/
def hexDigit (c : Char) : Option Nat :=
  let n := c.toNat
  if 48 ≤ n ∧ n ≤ 57 then some (n - 48)
  else if 65 ≤ n ∧ n ≤ 70 then some (n - 55)
  else if 97 ≤ n ∧ n ≤ 102 then some (n - 87)
  else none

def byteOfHex (h1 h2 : Char) : Option Nat :=
  match hexDigit h1, hexDigit h2 with
  | some a, some b => some (16 * a + b)
  | _, _ => none

/-- One scanned unit of a percent-encoded string: a literal character, or a
byte produced by a `%XX` escape. -/
inductive UriToken where
  | plain (c : Char)
  | byte (b : Nat)

/-- First pass of `decodeURIComponent`: turn every `%XX` escape into a byte,
failing with `URIError` on a malformed escape. -/
def percentTokens : List Char → Except JsErr (List UriToken)
  | [] => .ok []
  | '%' :: h1 :: h2 :: rest =>
    match byteOfHex h1 h2 with
    | none => .error (.uriError "URI malformed")
    | some b =>
      match percentTokens rest with
      | .error e => .error e
      | .ok ts => .ok (.byte b :: ts)
  | '%' :: _ => .error (.uriError "URI malformed")
  | c :: rest =>
    match percentTokens rest with
    | .error e => .error e
    | .ok ts => .ok (.plain c :: ts)

def isContinuationByte (b : Nat) : Bool := 0x80 ≤ b && b < 0xC0

/-- Second pass of `decodeURIComponent`: UTF-8-assemble the escape bytes.
Overlong encodings, surrogate code points, stray continuation bytes and
truncated sequences raise `URIError`, as in the JS builtin. -/
def utf8Assemble : List UriToken → Except JsErr (List Char)
  | [] => .ok []
  | .plain c :: rest =>
    match utf8Assemble rest with
    | .error e => .error e
    | .ok cs => .ok (c :: cs)
  | .byte b :: rest =>
    if b < 0x80 then
      match utf8Assemble rest with
      | .error e => .error e
      | .ok cs => .ok (Char.ofNat b :: cs)
    else if b < 0xC2 then .error (.uriError "URI malformed")
    else if b ≤ 0xDF then
      match rest with
      | .byte b2 :: rest2 =>
        if isContinuationByte b2 then
          match utf8Assemble rest2 with
          | .error e => .error e
          | .ok cs => .ok (Char.ofNat ((b - 0xC0) * 0x40 + (b2 - 0x80)) :: cs)
        else .error (.uriError "URI malformed")
      | _ => .error (.uriError "URI malformed")
    else if b ≤ 0xEF then
      match rest with
      | .byte b2 :: .byte b3 :: rest3 =>
        if isContinuationByte b2 && isContinuationByte b3 then
          let cp := (b - 0xE0) * 0x1000 + (b2 - 0x80) * 0x40 + (b3 - 0x80)
          if cp < 0x800 || (0xD800 ≤ cp && cp ≤ 0xDFFF) then
            .error (.uriError "URI malformed")
          else
            match utf8Assemble rest3 with
            | .error e => .error e
            | .ok cs => .ok (Char.ofNat cp :: cs)
        else .error (.uriError "URI malformed")
      | _ => .error (.uriError "URI malformed")
    else if b ≤ 0xF4 then
      match rest with
      | .byte b2 :: .byte b3 :: .byte b4 :: rest4 =>
        if isContinuationByte b2 && isContinuationByte b3 && isContinuationByte b4 then
          let cp := (b - 0xF0) * 0x40000 + (b2 - 0x80) * 0x1000 +
            (b3 - 0x80) * 0x40 + (b4 - 0x80)
          if cp < 0x10000 || 0x10FFFF < cp then .error (.uriError "URI malformed")
          else
            match utf8Assemble rest4 with
            | .error e => .error e
            | .ok cs => .ok (Char.ofNat cp :: cs)
        else .error (.uriError "URI malformed")
      | _ => .error (.uriError "URI malformed")
    else .error (.uriError "URI malformed")

/-- JS `decodeURIComponent`. -/
def jsDecodeURIComponent (l : List Char) : Except JsErr (List Char) :=
  match percentTokens l with
  | .error e => .error e
  | .ok ts => utf8Assemble ts

/- ── SqlGuard (server2/server.js `isSelectOnly`, lines 94-118; identical in
      the class-based `SqlGuard.isSelectOnly`) ───────────────────────────── -/

/-- The fifteen-entry deny list `Config.BLOCKED_SQL_KEYWORDS` / `blocked`. -/
def BLOCKED_SQL_KEYWORDS : List String :=
  ["insert", "update", "delete", "drop", "create", "alter", "truncate",
   "replace", "grant", "revoke", "set ", "call", "exec", "execute", "prepare"]

/-- `isSelectOnly` on the character list of the argument:
`const s = sql.trim().toLowerCase(); if (!s.startsWith("select")) return false;
return !blocked.some((kw) => s.includes(kw));`
(the source's local `s` is written out at both uses). -/
def isSelectOnlyL (sql : List Char) : Bool :=
  if !(("select".data).isPrefixOf (lowerL (trimL sql))) then false
  else !(BLOCKED_SQL_KEYWORDS.any fun kw => containsL (lowerL (trimL sql)) kw.data)

/-- `isSelectOnly` on a JS string argument. -/
def isSelectOnly (sql : String) : Bool := isSelectOnlyL sql.data

/-- `isSelectOnly` as invoked from JS, where the argument may be `undefined`
(modelled as `none`).  The function body starts with `sql.trim()` with no
guard, so an `undefined` argument raises a `TypeError` instead of returning. -/
def isSelectOnlyJS : Option String → Except JsErr Bool
  | none => .error (.typeError "Cannot read properties of undefined (reading trim)")
  | some s => .ok (isSelectOnly s)

/- ── server.js `isQuerySafe` (second document, lines 121-127) ────────────── -/

/-- The six-entry deny list `forbidden` of `isQuerySafe`. -/
def FORBIDDEN_KEYWORDS : List String :=
  ["DROP", "DELETE", "UPDATE", "CREATE", "ALTER", "TRUNCATE"]

/-- `function isQuerySafe(sql) { if (!sql) return false;
const decoded = decodeURIComponent(sql).toUpperCase().trim();
if (!decoded.startsWith('SELECT')) return false;
return !forbidden.some((word) => decoded.includes(word)); }`
An `undefined` argument is `none`; `decodeURIComponent` may raise. -/
def isQuerySafe : Option String → Except JsErr Bool
  | none => .ok false
  | some sql =>
    if sql = "" then .ok false
    else
      match jsDecodeURIComponent sql.data with
      | .error e => .error e
      | .ok dec =>
        let decoded := trimL (upperL dec)
        if !(("SELECT".data).isPrefixOf decoded) then .ok false
        else .ok (!(FORBIDDEN_KEYWORDS.any fun w => containsL decoded w.data))

/- ── Database model ────────────────────────────────────────────────────── -/

/-- The two credential tiers: `getWriteConn`/`_openWriteConnection`
(DB_WRITE_USER) and `getReadConn`/`_openReadConnection` (DB_READ_USER). -/
inductive Profile where
  | WRITER
  | READER
deriving DecidableEq

/-- The SQL statements the servers issue. -/
inductive Stmt where
  | createPatientTable
  | seedInsert
  | seedInsertLegacy
  | select (sql : List Char)
deriving DecidableEq

/-- Connection/statement events, in the order the handler performed them.
An `executed` event is recorded when the statement succeeded. -/
inductive DbEvent where
  | opened (p : Profile)
  | executed (s : Stmt)
  | closed (p : Profile)
deriving DecidableEq

def isOpenEv : DbEvent → Bool
  | .opened _ => true
  | _ => false

def isCloseEv : DbEvent → Bool
  | .closed _ => true
  | _ => false

def DbEvent.openedProfile : DbEvent → Option Profile
  | .opened p => some p
  | _ => none

/-- The profiles of the connections opened in an event trace. -/
def openedProfiles (evs : List DbEvent) : List Profile :=
  evs.filterMap DbEvent.openedProfile

/-- JSON values, for response bodies and result rows. -/
inductive Json where
  | null
  | bool (b : Bool)
  | num (n : Nat)
  | str (s : String)
  | arr (elems : List Json)
  | obj (fields : List (String × Json))

def Json.isBoolVal : Json → Bool
  | .bool _ => true
  | _ => false

/-- A JSON value is an object carrying a boolean `ok` field. -/
def hasOkBool : Json → Bool
  | .obj fields => fields.any fun f => f.1 == "ok" && f.2.isBoolVal
  | _ => false

/-- Oracle for the mysql2 driver: the outcome of opening each kind of
connection and of running each statement on it. -/
structure DbOracle where
  openWrite : Except JsErr Unit
  ddl : Except JsErr Unit
  insert : Except JsErr Nat
  openRead : Except JsErr Unit
  query : List Char → Except JsErr (List Json)

/-- `DatabaseService.insertSeedRows` (and the inline body of the server2
`POST /insert` route): open a write connection, `_ensurePatientTable`, bulk
`INSERT INTO patient (name, dateOfBirth) VALUES ?` with the seed rows, and
close the connection in a `finally` on every exit path.  Returns
`result.affectedRows` and the event trace. -/
def insertSeedRows (db : DbOracle) : Except JsErr Nat × List DbEvent :=
  match db.openWrite with
  | .error e => (.error e, [])
  | .ok _ =>
    match db.ddl with
    | .error e => (.error e, [.opened .WRITER, .closed .WRITER])
    | .ok _ =>
      match db.insert with
      | .error e =>
        (.error e, [.opened .WRITER, .executed .createPatientTable, .closed .WRITER])
      | .ok n =>
        (.ok n,
         [.opened .WRITER, .executed .createPatientTable, .executed .seedInsert,
          .closed .WRITER])

/-- `DatabaseService.runSelectQuery` (and the inline body of the server2
`GET /api/v1/sql/` route): open a read-only connection, run the pre-validated
query, close the connection in a `finally` on every exit path. -/
def runSelectQuery (db : DbOracle) (sql : List Char) :
    Except JsErr (List Json) × List DbEvent :=
  match db.openRead with
  | .error e => (.error e, [])
  | .ok _ =>
    match db.query sql with
    | .error e => (.error e, [.opened .READER, .closed .READER])
    | .ok rows => (.ok rows, [.opened .READER, .executed (.select sql), .closed .READER])

/- ── ResponseHelper / CORS ─────────────────────────────────────────────── -/

/-- The CORS headers a response carries (`vary = none` when the handler never
sets a `Vary` header). -/
structure CorsHeaders where
  allowOrigin : String
  vary : Option String
  allowMethods : String
  allowHeaders : String
deriving DecidableEq

/-- The `Access-Control-Allow-Origin` value computed by `setCors` /
`ResponseHelper.setCorsHeaders`:
`ALLOWED_ORIGIN === "*" ? "*" : origin && origin === ALLOWED_ORIGIN ? origin
: ALLOWED_ORIGIN` (a `none` or empty request origin is falsy). -/
def corsAllowValue (allowedOrigin : String) (requestOrigin : Option String) : String :=
  if allowedOrigin = "*" then "*"
  else
    match requestOrigin with
    | some o => if o ≠ "" ∧ o = allowedOrigin then o else allowedOrigin
    | none => allowedOrigin

/-- `ResponseHelper.setCorsHeaders` / `setCors`: the four headers set on the
response before any other processing. -/
def setCorsHeaders (allowedOrigin : String) (requestOrigin : Option String) :
    CorsHeaders :=
  ⟨corsAllowValue allowedOrigin requestOrigin, some "Origin", "GET,POST,OPTIONS",
   "Content-Type"⟩

/-- Response bodies: the empty 204 body, a plain-text body, or a JSON body. -/
inductive HttpBody where
  | empty
  | text (s : String)
  | json (j : Json)

structure HttpResponse where
  status : Nat
  cors : CorsHeaders
  body : HttpBody

/-- Outcome of handling one request: a response was written, or an exception
escaped the handler uncaught (no response; in Node the async handler's
promise rejects).  Either way the performed database events are recorded. -/
inductive Outcome where
  | response (r : HttpResponse) (events : List DbEvent)
  | crash (e : JsErr) (events : List DbEvent)

def Outcome.events : Outcome → List DbEvent
  | .response _ evs => evs
  | .crash _ evs => evs

/- ── Router (class-based server2; behaviourally identical to the plain
      server2/server.js handler up to message strings) ───────────────────── -/

/-- HTTP methods (`other` covers PUT, PATCH, ...). -/
inductive Method where
  | GET
  | POST
  | OPTIONS
  | other (verb : String)
deriving DecidableEq

/-- One inbound request as the handler sees it: the method, the request
`Origin` header (`none` when absent), the result of
`new URL(req.url, http://host)` — which throws when the Host header is
invalid — and the database oracle for this request. -/
structure ReqEnv where
  method : Method
  origin : Option String
  urlParse : Except JsErr String
  db : DbOracle

def errJson (e : JsErr) : Json :=
  .obj [("ok", .bool false), ("error", .str e.message)]

def rejectJson : Json :=
  .obj [("ok", .bool false), ("error", .str "Only SELECT queries are permitted.")]

def notFoundJson : Json :=
  .obj [("ok", .bool false), ("error", .str "Route not found.")]

def healthText : String := "Server2 is running."

def insertOkJson (n : Nat) : Json :=
  .obj [("ok", .bool true), ("message", .str s!"Inserted {n} rows."),
        ("affectedRows", .num n)]

def rowsJson (rows : List Json) : Json :=
  .obj [("ok", .bool true), ("rows", .arr rows)]

def SQL_ROUTE : String := "/api/v1/sql/"

/-- `pathname.slice('/api/v1/sql/'.length)`: the still-encoded tail. -/
def sqlTail (pathname : String) : List Char :=
  pathname.data.drop SQL_ROUTE.data.length

/-- `Router._handleInsert`: delegate to `insertSeedRows`; a database error
propagates to the dispatch catch. -/
def handleInsert (cors : CorsHeaders) (db : DbOracle) :
    Except JsErr HttpResponse × List DbEvent :=
  match insertSeedRows db with
  | (.ok n, evs) => (.ok ⟨200, cors, .json (insertOkJson n)⟩, evs)
  | (.error e, evs) => (.error e, evs)

/-- The part of `Router._handleSqlQuery` after `decodeURIComponent`
succeeded: run `SqlGuard` on the decoded text; reject with 403 or execute
through the read-only connection. -/
def handleSqlDecoded (cors : CorsHeaders) (db : DbOracle) (sql : List Char) :
    Except JsErr HttpResponse × List DbEvent :=
  if !(isSelectOnlyL sql) then (.ok ⟨403, cors, .json rejectJson⟩, [])
  else
    match runSelectQuery db sql with
    | (.ok rows, evs) => (.ok ⟨200, cors, .json (rowsJson rows)⟩, evs)
    | (.error e, evs) => (.error e, evs)

/-- `Router._handleSqlQuery`: decode the tail once, run `SqlGuard`, and only
then touch the database; decode and database errors propagate to the
dispatch catch. -/
def handleSqlQuery (cors : CorsHeaders) (db : DbOracle) (pathname : String) :
    Except JsErr HttpResponse × List DbEvent :=
  match jsDecodeURIComponent (sqlTail pathname) with
  | .error e => (.error e, [])
  | .ok sql => handleSqlDecoded cors db sql

/-- The route table inside `Router.dispatch`'s try block. -/
def route (cors : CorsHeaders) (db : DbOracle) (m : Method) (p : String) :
    Except JsErr HttpResponse × List DbEvent :=
  if m = .GET ∧ p = "/" then (.ok ⟨200, cors, .text healthText⟩, [])
  else if m = .POST ∧ p = "/insert" then handleInsert cors db
  else if m = .GET ∧ jsStartsWith p SQL_ROUTE = true then handleSqlQuery cors db p
  else (.ok ⟨404, cors, .json notFoundJson⟩, [])

/-- `Router.dispatch` (= the server2 `http.createServer` handler): CORS
headers are attached first, the OPTIONS preflight is answered 204, the URL is
parsed — note: *before* the try — and the routed handler runs inside the
try/catch that converts any propagated error into a 500 JSON response.
The source computes the CORS headers once; here the same pure value is
written out at each use. -/
def dispatch (allowedOrigin : String) (env : ReqEnv) : Outcome :=
  if env.method = .OPTIONS then
    .response ⟨204, setCorsHeaders allowedOrigin env.origin, .empty⟩ []
  else
    match env.urlParse with
    | .error e => .crash e []
    | .ok pathname =>
      match route (setCorsHeaders allowedOrigin env.origin) env.db env.method pathname with
      | (.ok r, evs) => .response r evs
      | (.error e, evs) =>
        .response ⟨500, setCorsHeaders allowedOrigin env.origin, .json (errJson e)⟩ evs

/-- The complete list of response forms `dispatch` can produce, each carrying
the CORS headers computed at the top of the handler. -/
def canonicalResponse (cors : CorsHeaders) (r : HttpResponse) : Prop :=
  r = ⟨204, cors, .empty⟩ ∨
  r = ⟨200, cors, .text healthText⟩ ∨
  (∃ n, r = ⟨200, cors, .json (insertOkJson n)⟩) ∨
  r = ⟨403, cors, .json rejectJson⟩ ∨
  (∃ rows, r = ⟨200, cors, .json (rowsJson rows)⟩) ∨
  r = ⟨404, cors, .json notFoundJson⟩ ∨
  (∃ e, r = ⟨500, cors, .json (errJson e)⟩)

/- ── Legacy server.js (second document, lines 129-211) ─────────────────── -/

/-- JS `s.includes(sub)` on strings. -/
def jsIncludes (s sub : String) : Bool := containsL s.data sub.data

/-- The headers set by the legacy handler: wildcard origin always, no
`Vary`, and `GET, POST, OPTIONS` with spaces. -/
def LEGACY_CORS : CorsHeaders := ⟨"*", none, "GET, POST, OPTIONS", "Content-Type"⟩

/-- Drop everything up to and including the first occurrence of `sep`;
`none` when `sep` does not occur. -/
def dropAfterFirst (sep : List Char) : List Char → Option (List Char)
  | [] => if sep.isEmpty then some [] else none
  | c :: t =>
    if sep.isPrefixOf (c :: t) then some ((c :: t).drop sep.length)
    else dropAfterFirst sep t

/-- Take everything before the first occurrence of `sep` (all of it when
`sep` does not occur). -/
def takeBefore (sep : List Char) : List Char → List Char
  | [] => []
  | c :: t => if sep.isPrefixOf (c :: t) then [] else c :: takeBefore sep t

/-- `rawQuery = url.pathname.split('/api/v1/sql/')[1]`: the text between the
first occurrence of the separator and the next one (or the end).  When the
separator does not occur, index 1 is `undefined`, which `isQuerySafe` treats
exactly like the empty string (both are falsy), so it is modelled as `""`. -/
def legacyRawQuery (pathname : String) : String :=
  match dropAfterFirst ("/api/v1/sql/".data) pathname.data with
  | none => ""
  | some rest => String.mk (takeBefore ("/api/v1/sql/".data) rest)

/-- The legacy server.js request handler (second document, lines 129-211):
wildcard CORS headers, 204 preflight, a `POST /insert` route and a
`GET /api/v1/sql/` route each with their own try/catch/finally, and a
plain-text 404 fallback (`res.end('Not Found')`).  `isQuerySafe` runs
*outside* the try, so a `URIError` it raises escapes uncaught; the query
success body is the bare rows array and no body carries an `ok` field. -/
def serverJsDispatch (env : ReqEnv) : Outcome :=
  if env.method = .OPTIONS then .response ⟨204, LEGACY_CORS, .empty⟩ []
  else
    match env.urlParse with
    | .error e => .crash e []
    | .ok pathname =>
      if env.method = .POST ∧ jsIncludes pathname "/insert" = true then
        match env.db.openWrite with
        | .error e =>
          .response ⟨500, LEGACY_CORS, .json (.obj [("error", .str e.message)])⟩ []
        | .ok _ =>
          match env.db.ddl with
          | .error e =>
            .response ⟨500, LEGACY_CORS, .json (.obj [("error", .str e.message)])⟩
              [.opened .WRITER, .closed .WRITER]
          | .ok _ =>
            match env.db.insert with
            | .error e =>
              .response ⟨500, LEGACY_CORS, .json (.obj [("error", .str e.message)])⟩
                [.opened .WRITER, .executed .createPatientTable, .closed .WRITER]
            | .ok _ =>
              .response
                ⟨200, LEGACY_CORS,
                 .json (.obj [("message",
                   .str "Table checked/created and 4 patients inserted!")])⟩
                [.opened .WRITER, .executed .createPatientTable,
                 .executed .seedInsertLegacy, .closed .WRITER]
      else if env.method = .GET ∧ jsIncludes pathname "/api/v1/sql/" = true then
        match isQuerySafe (some (legacyRawQuery pathname)) with
        | .error e => .crash e []
        | .ok false =>
          .response
            ⟨403, LEGACY_CORS,
             .json (.obj [("error", .str "Permission Denied: Only SELECT allowed.")])⟩ []
        | .ok true =>
          match jsDecodeURIComponent (legacyRawQuery pathname).data with
          | .error e =>
            .response ⟨500, LEGACY_CORS, .json (.obj [("error", .str e.message)])⟩ []
          | .ok sql =>
            match env.db.openRead with
            | .error e =>
              .response ⟨500, LEGACY_CORS, .json (.obj [("error", .str e.message)])⟩ []
            | .ok _ =>
              match env.db.query sql with
              | .error e =>
                .response ⟨500, LEGACY_CORS, .json (.obj [("error", .str e.message)])⟩
                  [.opened .READER, .closed .READER]
              | .ok rows =>
                .response ⟨200, LEGACY_CORS, .json (.arr rows)⟩
                  [.opened .READER, .executed (.select sql), .closed .READER]
      else .response ⟨404, LEGACY_CORS, .text "Not Found"⟩ []

/-- Result of a standalone route handler outside any dispatcher. -/
structure HandlerResult where
  status : Nat
  body : HttpBody
  events : List DbEvent

/-- The query-execution block of the *first* server.js document, lines 83-98
(`// Proceed to DB query...`).  Its try block reads the identifiers
`dbConfig` (line 85) and `sqlQuery` (line 88); neither is declared anywhere
in that document — line 3 binds `config` — so evaluating `dbConfig` throws
`ReferenceError: dbConfig is not defined` before `mysql.createConnection` is
invoked, and the catch answers 500 with that message.  No database
connection is ever opened, and the block has no `finally`, so nothing would
close a connection that failed after opening. -/
def legacySqlQueryNoFinally (_db : DbOracle) : HandlerResult :=
  ⟨500, .json (.obj [("error", .str "dbConfig is not defined")]), []⟩

/- ── Table semantics ───────────────────────────────────────────────────── -/

/-- `Config.SEED_ROWS` / `SEED_ROWS`: the fixed four-row data set. -/
def SEED_ROWS : List (String × String) :=
  [("Sara Brown", "1901-01-01"), ("John Smith", "1941-01-01"),
   ("Jack Ma", "1961-01-30"), ("Elon Musk", "1999-01-01")]

/-- The hard-coded `insertPatientsQuery` VALUES of legacy server.js. -/
def LEGACY_SEED_ROWS : List (String × String) :=
  [("Sara Brown", "1901-01-01"), ("John Smith", "1941-01-01"),
   ("Jack Ma", "1961-01-30"), ("Elon Musk Jr.", "1999-01-01")]

/-- Modelled MySQL semantics of the statements the servers issue, acting on
the patient table's rows: the bulk `INSERT ... VALUES` appends its rows — it
carries no upsert or deduplication clause — while `CREATE TABLE IF NOT
EXISTS` (schema already satisfied), `SELECT`, and connection open/close do
not change the row set. -/
def applyEvent (t : List (String × String)) : DbEvent → List (String × String)
  | .executed .seedInsert => t ++ SEED_ROWS
  | .executed .seedInsertLegacy => t ++ LEGACY_SEED_ROWS
  | _ => t

/-- Run an event trace against a table state. -/
def runEvents (t : List (String × String)) (evs : List DbEvent) :
    List (String × String) :=
  evs.foldl applyEvent t

/-- The table-level effect of one successful seed request. -/
def seedAppend (t : List (String × String)) : List (String × String) :=
  t ++ SEED_ROWS

/- ── Concrete requests and oracles used by witnesses/counterexamples ───── -/

/-- An oracle for a healthy database: every operation succeeds and the bulk
insert reports 4 affected rows. -/
def oracleAllOk : DbOracle :=
  ⟨.ok (), .ok (), .ok 4, .ok (), fun _ => .ok []⟩

/-- A healthy database whose bulk insert reports 7 affected rows, to show
the reported count is not hard-coded. -/
def oracleSeven : DbOracle :=
  ⟨.ok (), .ok (), .ok 7, .ok (), fun _ => .ok []⟩

/-- A database where the bulk insert itself fails after connecting. -/
def oracleInsertFails : DbOracle :=
  ⟨.ok (), .ok (), .error (.dbError "Duplicate entry"), .ok (), fun _ => .ok []⟩

/-- A request whose Host header makes `new URL` throw. -/
def crashEnv : ReqEnv :=
  ⟨.GET, none, .error (.typeError "Invalid URL"), oracleAllOk⟩

def c2Env : ReqEnv := ⟨.GET, none, .ok "/api/v1/sql/SELECT%201", oracleAllOk⟩

def c3Env : ReqEnv := ⟨.GET, none, .ok "/api/v1/sql/DELETE%20FROM%20patient", oracleAllOk⟩

def c4Env : ReqEnv := ⟨.POST, none, .ok "/insert", oracleInsertFails⟩

def c6Env : ReqEnv := ⟨.POST, none, .ok "/insert", oracleSeven⟩

def c7Env : ReqEnv := ⟨.GET, none, .ok "/nope", oracleAllOk⟩

def c9Env : ReqEnv := ⟨.GET, some "https://site.example", .ok "/", oracleAllOk⟩

def c10Env : ReqEnv := ⟨.POST, none, .ok "/insert", oracleAllOk⟩

end Lab4

namespace Lab4

/- ── Helper lemmas about the string primitives ─────────────────────────── -/

theorem isPrefixOf_eq_true_iff (p : List Char) :
    ∀ l : List Char, p.isPrefixOf l = true ↔ ∃ post, l = p ++ post := by
  induction p with
  | nil =>
    intro l
    simp [List.isPrefixOf]
  | cons a p ih =>
    intro l
    cases l with
    | nil => simp [List.isPrefixOf]
    | cons b t =>
      simp only [List.isPrefixOf, Bool.and_eq_true, beq_iff_eq, ih]
      constructor
      · rintro ⟨rfl, post, rfl⟩
        exact ⟨post, rfl⟩
      · rintro ⟨post, hpost⟩
        rw [List.cons_append] at hpost
        injection hpost with h1 h2
        exact ⟨h1.symm, post, h2⟩

theorem containsL_eq_true_iff (pat : List Char) :
    ∀ hay : List Char, containsL hay pat = true ↔ ∃ pre post, hay = pre ++ pat ++ post := by
  intro hay
  induction hay with
  | nil =>
    simp only [containsL, List.isEmpty_iff]
    constructor
    · rintro rfl
      exact ⟨[], [], rfl⟩
    · rintro ⟨pre, post, h⟩
      have h2 : pre ++ pat = [] ∧ post = [] := List.append_eq_nil.mp h.symm
      exact (List.append_eq_nil.mp h2.1).2
  | cons c t ih =>
    simp only [containsL, Bool.or_eq_true, isPrefixOf_eq_true_iff, ih]
    constructor
    · rintro (⟨post, h⟩ | ⟨pre, post, h⟩)
      · exact ⟨[], post, by simpa using h⟩
      · refine ⟨c :: pre, post, ?_⟩
        rw [List.cons_append, List.cons_append, ← h]
    · rintro ⟨pre, post, h⟩
      cases pre with
      | nil =>
        left
        exact ⟨post, by simpa using h⟩
      | cons d pre2 =>
        right
        rw [List.cons_append, List.cons_append] at h
        injection h with h1 h2
        exact ⟨pre2, post, h2⟩

/- ── C1 ─────────────────────────────────────────────────────────────────── -/

/-- C1 (amended): the claimed iff holds of `isSelectOnly` (server2 and the
class-based `SqlGuard`): for every string `s`, `isSelectOnly s` is true iff
the trimmed, lower-cased form of `s` starts with the literal `select` and
contains none of the fifteen deny-listed substrings anywhere.  (It does not
hold of `isQuerySafe` in legacy server.js — see the counterexample.) -/
theorem C1_amended_guard_iff (s : String) :
    isSelectOnly s = true ↔
      ((∃ rest, lowerL (trimL s.data) = "select".data ++ rest) ∧
        ∀ kw ∈ BLOCKED_SQL_KEYWORDS,
          ¬ ∃ pre post, lowerL (trimL s.data) = pre ++ kw.data ++ post) := by
  have h2 : (BLOCKED_SQL_KEYWORDS.any fun kw =>
      containsL (lowerL (trimL s.data)) kw.data) = true ↔
      ∃ kw ∈ BLOCKED_SQL_KEYWORDS, ∃ pre post,
        lowerL (trimL s.data) = pre ++ kw.data ++ post := by
    simp only [List.any_eq_true, containsL_eq_true_iff]
  unfold isSelectOnly isSelectOnlyL
  by_cases hp : ("select".data).isPrefixOf (lowerL (trimL s.data)) = true
  · simp only [hp, Bool.not_true, Bool.false_eq_true, if_false, Bool.not_eq_true']
    constructor
    · intro hq
      refine ⟨(isPrefixOf_eq_true_iff _ _).mp hp, ?_⟩
      intro kw hkw hex
      have hc := h2.mpr ⟨kw, hkw, hex⟩
      rw [hc] at hq
      cases hq
    · rintro ⟨-, hkw⟩
      cases hq : (BLOCKED_SQL_KEYWORDS.any fun kw =>
          containsL (lowerL (trimL s.data)) kw.data)
      · rfl
      · obtain ⟨kw, hmem, hex⟩ := h2.mp hq
        exact absurd hex (hkw kw hmem)
  · have hp2 : ("select".data).isPrefixOf (lowerL (trimL s.data)) = false := by
      cases hb : ("select".data).isPrefixOf (lowerL (trimL s.data))
      · rfl
      · exact absurd hb hp
    have hno : ¬ ∃ rest, lowerL (trimL s.data) = "select".data ++ rest :=
      fun ⟨rest, hr⟩ => hp ((isPrefixOf_eq_true_iff _ _).mpr ⟨rest, hr⟩)
    have hfalse : (if !(("select".data).isPrefixOf (lowerL (trimL s.data))) then false
        else !(BLOCKED_SQL_KEYWORDS.any fun kw =>
          containsL (lowerL (trimL s.data)) kw.data)) = false := by
      rw [hp2]
      rfl
    rw [hfalse]
    constructor
    · intro h
      exact (Bool.false_ne_true h).elim
    · rintro ⟨hex, -⟩
      exact absurd hex hno

/-- C1 witness: the amended iff applied at `SELECT * FROM patient`. -/
theorem C1_witness :
    (∃ rest, lowerL (trimL ("SELECT * FROM patient".data)) = "select".data ++ rest) ∧
      ∀ kw ∈ BLOCKED_SQL_KEYWORDS,
        ¬ ∃ pre post,
          lowerL (trimL ("SELECT * FROM patient".data)) = pre ++ kw.data ++ post :=
  (C1_amended_guard_iff "SELECT * FROM patient").mp rfl

/-- C1 counterexample: the claim also names `isQuerySafe` as a realisation of
the guard, but `isQuerySafe` accepts `select insert` even though its trimmed
lower-cased form contains the deny-listed substring `insert` — the claimed
iff predicts `false`.  (`isSelectOnly` correctly returns `false` here.) -/
theorem C1_counterexample :
    isQuerySafe (some "select insert") = .ok true
    ∧ isSelectOnly "select insert" = false
    ∧ "insert" ∈ BLOCKED_SQL_KEYWORDS
    ∧ lowerL (trimL ("select insert".data)) = "select ".data ++ "insert".data ++ [] :=
  ⟨rfl, rfl, by decide, rfl⟩

end Lab4

namespace Lab4

/- ── Helper lemmas about traces and routing ────────────────────────────── -/

theorem insertSeedRows_cases (db : DbOracle) :
    (∃ e, insertSeedRows db = (.error e, [])) ∨
    (∃ e, insertSeedRows db = (.error e, [.opened .WRITER, .closed .WRITER])) ∨
    (∃ e, insertSeedRows db =
      (.error e, [.opened .WRITER, .executed .createPatientTable, .closed .WRITER])) ∨
    (∃ k, insertSeedRows db =
      (.ok k, [.opened .WRITER, .executed .createPatientTable, .executed .seedInsert,
               .closed .WRITER])) := by
  unfold insertSeedRows
  rcases db.openWrite with e | u
  · exact Or.inl ⟨e, rfl⟩
  · rcases db.ddl with e | u2
    · exact Or.inr (Or.inl ⟨e, rfl⟩)
    · rcases db.insert with e | n
      · exact Or.inr (Or.inr (Or.inl ⟨e, rfl⟩))
      · exact Or.inr (Or.inr (Or.inr ⟨n, rfl⟩))

theorem runSelectQuery_cases (db : DbOracle) (sql : List Char) :
    (∃ e, runSelectQuery db sql = (.error e, [])) ∨
    (∃ e, runSelectQuery db sql = (.error e, [.opened .READER, .closed .READER])) ∨
    (∃ rows, runSelectQuery db sql =
      (.ok rows, [.opened .READER, .executed (.select sql), .closed .READER])) := by
  unfold runSelectQuery
  rcases db.openRead with e | u
  · exact Or.inl ⟨e, rfl⟩
  · rcases db.query sql with e | rows
    · exact Or.inr (Or.inl ⟨e, rfl⟩)
    · exact Or.inr (Or.inr ⟨rows, rfl⟩)

theorem insertSeedRows_ok_trace (db : DbOracle) (k : Nat) (evs : List DbEvent)
    (h : insertSeedRows db = (.ok k, evs)) :
    evs = [.opened .WRITER, .executed .createPatientTable, .executed .seedInsert,
           .closed .WRITER] := by
  rcases insertSeedRows_cases db with ⟨e, he⟩ | ⟨e, he⟩ | ⟨e, he⟩ | ⟨m, he⟩ <;>
    rw [he] at h
  · injection h with h1 h2
    exact Except.noConfusion h1
  · injection h with h1 h2
    exact Except.noConfusion h1
  · injection h with h1 h2
    exact Except.noConfusion h1
  · injection h with h1 h2
    exact h2.symm

theorem handleInsert_eq_ok (cors : CorsHeaders) (db : DbOracle) (n : Nat)
    (evs : List DbEvent) (h : insertSeedRows db = (.ok n, evs)) :
    handleInsert cors db = (.ok ⟨200, cors, .json (insertOkJson n)⟩, evs) := by
  unfold handleInsert
  rw [h]

theorem handleInsert_eq_err (cors : CorsHeaders) (db : DbOracle) (e : JsErr)
    (evs : List DbEvent) (h : insertSeedRows db = (.error e, evs)) :
    handleInsert cors db = (.error e, evs) := by
  unfold handleInsert
  rw [h]

theorem handleSqlQuery_eq_err (cors : CorsHeaders) (db : DbOracle) (p : String)
    (e : JsErr) (hd : jsDecodeURIComponent (sqlTail p) = .error e) :
    handleSqlQuery cors db p = (.error e, []) := by
  unfold handleSqlQuery
  rw [hd]

theorem handleSqlQuery_eq_ok (cors : CorsHeaders) (db : DbOracle) (p : String)
    (sql : List Char) (hd : jsDecodeURIComponent (sqlTail p) = .ok sql) :
    handleSqlQuery cors db p = handleSqlDecoded cors db sql := by
  unfold handleSqlQuery
  rw [hd]

theorem handleSqlDecoded_reject (cors : CorsHeaders) (db : DbOracle)
    (sql : List Char) (hg : isSelectOnlyL sql = false) :
    handleSqlDecoded cors db sql = (.ok ⟨403, cors, .json rejectJson⟩, []) := by
  unfold handleSqlDecoded
  simp [hg]

theorem handleSqlDecoded_run_ok (cors : CorsHeaders) (db : DbOracle)
    (sql : List Char) (rows : List Json) (evs : List DbEvent)
    (hg : isSelectOnlyL sql = true) (hr : runSelectQuery db sql = (.ok rows, evs)) :
    handleSqlDecoded cors db sql = (.ok ⟨200, cors, .json (rowsJson rows)⟩, evs) := by
  unfold handleSqlDecoded
  simp [hg, hr]

theorem handleSqlDecoded_run_err (cors : CorsHeaders) (db : DbOracle)
    (sql : List Char) (e : JsErr) (evs : List DbEvent)
    (hg : isSelectOnlyL sql = true) (hr : runSelectQuery db sql = (.error e, evs)) :
    handleSqlDecoded cors db sql = (.error e, evs) := by
  unfold handleSqlDecoded
  simp [hg, hr]

theorem handleInsert_trace (cors : CorsHeaders) (db : DbOracle) :
    (handleInsert cors db).2 = (insertSeedRows db).2 := by
  rcases hres : insertSeedRows db with ⟨res, evs⟩
  rcases res with e | n
  · rw [handleInsert_eq_err cors db e evs hres]
  · rw [handleInsert_eq_ok cors db n evs hres]

theorem handleSqlQuery_trace (cors : CorsHeaders) (db : DbOracle) (p : String) :
    (handleSqlQuery cors db p).2 = [] ∨
    ∃ sql, (handleSqlQuery cors db p).2 = (runSelectQuery db sql).2 := by
  rcases hd : jsDecodeURIComponent (sqlTail p) with e | sql
  · rw [handleSqlQuery_eq_err cors db p e hd]
    exact Or.inl rfl
  · rw [handleSqlQuery_eq_ok cors db p sql hd]
    cases hg : isSelectOnlyL sql
    · rw [handleSqlDecoded_reject cors db sql hg]
      exact Or.inl rfl
    · right
      refine ⟨sql, ?_⟩
      rcases hr : runSelectQuery db sql with ⟨res, evs⟩
      rcases res with e | rows
      · rw [handleSqlDecoded_run_err cors db sql e evs hg hr]
      · rw [handleSqlDecoded_run_ok cors db sql rows evs hg hr]

theorem route_trace (cors : CorsHeaders) (db : DbOracle) (m : Method) (p : String) :
    (route cors db m p).2 = [] ∨
    (m = .POST ∧ (route cors db m p).2 = (insertSeedRows db).2) ∨
    (m = .GET ∧ ∃ sql, (route cors db m p).2 = (runSelectQuery db sql).2) := by
  unfold route
  by_cases h1 : m = .GET ∧ p = "/"
  · rw [if_pos h1]
    exact Or.inl rfl
  · rw [if_neg h1]
    by_cases h2 : m = .POST ∧ p = "/insert"
    · rw [if_pos h2]
      exact Or.inr (Or.inl ⟨h2.1, handleInsert_trace cors db⟩)
    · rw [if_neg h2]
      by_cases h3 : m = .GET ∧ jsStartsWith p SQL_ROUTE = true
      · rw [if_pos h3]
        rcases handleSqlQuery_trace cors db p with h | ⟨sql, h⟩
        · exact Or.inl h
        · exact Or.inr (Or.inr ⟨h3.1, sql, h⟩)
      · rw [if_neg h3]
        exact Or.inl rfl

theorem dispatch_eq_OPTIONS (ao : String) (env : ReqEnv)
    (hm : env.method = .OPTIONS) :
    dispatch ao env = .response ⟨204, setCorsHeaders ao env.origin, .empty⟩ [] := by
  unfold dispatch
  rw [if_pos hm]

theorem dispatch_eq_crash (ao : String) (env : ReqEnv) (e : JsErr)
    (hOPT : env.method ≠ .OPTIONS) (hu : env.urlParse = .error e) :
    dispatch ao env = .crash e [] := by
  unfold dispatch
  rw [if_neg hOPT, hu]

theorem dispatch_eq_route (ao : String) (env : ReqEnv) (p : String)
    (hOPT : env.method ≠ .OPTIONS) (hu : env.urlParse = .ok p) :
    dispatch ao env =
      (match route (setCorsHeaders ao env.origin) env.db env.method p with
       | (.ok r, evs) => .response r evs
       | (.error e, evs) =>
         .response ⟨500, setCorsHeaders ao env.origin, .json (errJson e)⟩ evs) := by
  unfold dispatch
  rw [if_neg hOPT, hu]

theorem dispatch_route_ok (ao : String) (env : ReqEnv) (p : String)
    (r : HttpResponse) (evs : List DbEvent)
    (hOPT : env.method ≠ .OPTIONS) (hu : env.urlParse = .ok p)
    (hr : route (setCorsHeaders ao env.origin) env.db env.method p = (.ok r, evs)) :
    dispatch ao env = .response r evs := by
  rw [dispatch_eq_route ao env p hOPT hu, hr]

theorem dispatch_route_err (ao : String) (env : ReqEnv) (p : String)
    (e : JsErr) (evs : List DbEvent)
    (hOPT : env.method ≠ .OPTIONS) (hu : env.urlParse = .ok p)
    (hr : route (setCorsHeaders ao env.origin) env.db env.method p = (.error e, evs)) :
    dispatch ao env =
      .response ⟨500, setCorsHeaders ao env.origin, .json (errJson e)⟩ evs := by
  rw [dispatch_eq_route ao env p hOPT hu, hr]

theorem dispatch_trace (ao : String) (env : ReqEnv) :
    (dispatch ao env).events = [] ∨
    ∃ p, env.urlParse = .ok p ∧
      (dispatch ao env).events =
        (route (setCorsHeaders ao env.origin) env.db env.method p).2 := by
  by_cases hm : env.method = .OPTIONS
  · rw [dispatch_eq_OPTIONS ao env hm]
    exact Or.inl rfl
  · rcases hu : env.urlParse with e | p
    · rw [dispatch_eq_crash ao env e hm hu]
      exact Or.inl rfl
    · right
      refine ⟨p, rfl, ?_⟩
      rcases hr : route (setCorsHeaders ao env.origin) env.db env.method p with ⟨res, evs⟩
      rcases res with e | r
      · rw [dispatch_route_err ao env p e evs hm hu hr]
        rfl
      · rw [dispatch_route_ok ao env p r evs hm hu hr]
        rfl

theorem route_insert (cors : CorsHeaders) (db : DbOracle) (m : Method)
    (hm : m = .POST) :
    route cors db m "/insert" = handleInsert cors db := by
  unfold route
  have hA : ¬(m = .GET ∧ ("/insert" : String) = "/") := by
    rintro ⟨-, hx⟩
    exact absurd hx (by decide)
  rw [if_neg hA, if_pos ⟨hm, rfl⟩]

theorem route_sql (cors : CorsHeaders) (db : DbOracle) (m : Method) (p : String)
    (hm : m = .GET) (hp : jsStartsWith p SQL_ROUTE = true) :
    route cors db m p = handleSqlQuery cors db p := by
  have hne : p ≠ "/" := by
    intro hcontra
    rw [hcontra] at hp
    exact absurd hp (by decide)
  have hni : p ≠ "/insert" := by
    intro hcontra
    rw [hcontra] at hp
    exact absurd hp (by decide)
  unfold route
  have hA : ¬(m = .GET ∧ p = "/") := by
    rintro ⟨-, hx⟩
    exact hne hx
  have hB : ¬(m = .POST ∧ p = "/insert") := by
    rintro ⟨-, hx⟩
    exact hni hx
  rw [if_neg hA, if_neg hB, if_pos ⟨hm, hp⟩]

theorem route_of_OPTIONS (cors : CorsHeaders) (db : DbOracle) (m : Method)
    (p : String) (hm : m = .OPTIONS) :
    route cors db m p = (.ok ⟨404, cors, .json notFoundJson⟩, []) := by
  unfold route
  have hA : ¬(m = .GET ∧ p = "/") := by
    rintro ⟨hx, -⟩
    rw [hm] at hx
    exact Method.noConfusion hx
  have hB : ¬(m = .POST ∧ p = "/insert") := by
    rintro ⟨hx, -⟩
    rw [hm] at hx
    exact Method.noConfusion hx
  have hC : ¬(m = .GET ∧ jsStartsWith p SQL_ROUTE = true) := by
    rintro ⟨hx, -⟩
    rw [hm] at hx
    exact Method.noConfusion hx
  rw [if_neg hA, if_neg hB, if_neg hC]

end Lab4

namespace Lab4

/- ── Response-shape lemmas ─────────────────────────────────────────────── -/

theorem handleInsert_ok_shape (cors : CorsHeaders) (db : DbOracle)
    (r : HttpResponse) (evs : List DbEvent)
    (h : handleInsert cors db = (.ok r, evs)) :
    ∃ n, r = ⟨200, cors, .json (insertOkJson n)⟩ := by
  rcases hres : insertSeedRows db with ⟨res, evs2⟩
  rcases res with e | n
  · rw [handleInsert_eq_err cors db e evs2 hres] at h
    injection h with h1 h2
    exact Except.noConfusion h1
  · rw [handleInsert_eq_ok cors db n evs2 hres] at h
    injection h with h1 h2
    injection h1 with h3
    exact ⟨n, h3.symm⟩

theorem handleSqlQuery_ok_shape (cors : CorsHeaders) (db : DbOracle) (p : String)
    (r : HttpResponse) (evs : List DbEvent)
    (h : handleSqlQuery cors db p = (.ok r, evs)) :
    r = ⟨403, cors, .json rejectJson⟩ ∨
    ∃ rows, r = ⟨200, cors, .json (rowsJson rows)⟩ := by
  rcases hd : jsDecodeURIComponent (sqlTail p) with e | sql
  · rw [handleSqlQuery_eq_err cors db p e hd] at h
    injection h with h1 h2
    exact Except.noConfusion h1
  · rw [handleSqlQuery_eq_ok cors db p sql hd] at h
    cases hg : isSelectOnlyL sql
    · rw [handleSqlDecoded_reject cors db sql hg] at h
      injection h with h1 h2
      injection h1 with h3
      exact Or.inl h3.symm
    · rcases hr : runSelectQuery db sql with ⟨res, evs2⟩
      rcases res with e | rows
      · rw [handleSqlDecoded_run_err cors db sql e evs2 hg hr] at h
        injection h with h1 h2
        exact Except.noConfusion h1
      · rw [handleSqlDecoded_run_ok cors db sql rows evs2 hg hr] at h
        injection h with h1 h2
        injection h1 with h3
        exact Or.inr ⟨rows, h3.symm⟩

theorem route_ok_shape (cors : CorsHeaders) (db : DbOracle) (m : Method)
    (p : String) (r : HttpResponse) (evs : List DbEvent)
    (h : route cors db m p = (.ok r, evs)) :
    canonicalResponse cors r := by
  unfold route at h
  by_cases h1 : m = .GET ∧ p = "/"
  · rw [if_pos h1] at h
    injection h with ha hb
    injection ha with hc
    exact Or.inr (Or.inl hc.symm)
  · rw [if_neg h1] at h
    by_cases h2 : m = .POST ∧ p = "/insert"
    · rw [if_pos h2] at h
      rcases handleInsert_ok_shape _ _ _ _ h with ⟨n, hn⟩
      exact Or.inr (Or.inr (Or.inl ⟨n, hn⟩))
    · rw [if_neg h2] at h
      by_cases h3 : m = .GET ∧ jsStartsWith p SQL_ROUTE = true
      · rw [if_pos h3] at h
        rcases handleSqlQuery_ok_shape _ _ _ _ _ h with h4 | ⟨rows, h4⟩
        · exact Or.inr (Or.inr (Or.inr (Or.inl h4)))
        · exact Or.inr (Or.inr (Or.inr (Or.inr (Or.inl ⟨rows, h4⟩))))
      · rw [if_neg h3] at h
        injection h with ha hb
        injection ha with hc
        exact Or.inr (Or.inr (Or.inr (Or.inr (Or.inr (Or.inl hc.symm)))))

theorem dispatch_shape (ao : String) (env : ReqEnv) (r : HttpResponse)
    (evs : List DbEvent) (h : dispatch ao env = .response r evs) :
    canonicalResponse (setCorsHeaders ao env.origin) r := by
  by_cases hm : env.method = .OPTIONS
  · rw [dispatch_eq_OPTIONS ao env hm] at h
    injection h with h1 h2
    exact Or.inl h1.symm
  · rcases hu : env.urlParse with e | p
    · rw [dispatch_eq_crash ao env e hm hu] at h
      exact Outcome.noConfusion h
    · rcases hr : route (setCorsHeaders ao env.origin) env.db env.method p with ⟨res, evs2⟩
      rcases res with e | rr
      · rw [dispatch_route_err ao env p e evs2 hm hu hr] at h
        injection h with h1 h2
        exact Or.inr (Or.inr (Or.inr (Or.inr (Or.inr (Or.inr ⟨e, h1.symm⟩)))))
      · rw [dispatch_route_ok ao env p rr evs2 hm hu hr] at h
        injection h with h1 h2
        rw [← h1]
        exact route_ok_shape _ _ _ _ _ _ hr

end Lab4

namespace Lab4

/- ── C2 ─────────────────────────────────────────────────────────────────── -/

/-- C2: credentials never cross role boundaries.  A request classified as a
client query (GET on the `/api/v1/sql/` route) only ever opens connections
with the READER profile, and a seed request (POST `/insert`) only ever opens
connections with the WRITER profile. -/
theorem C2_credential_isolation (ao : String) (env : ReqEnv) (p : String)
    (hu : env.urlParse = .ok p) :
    ((env.method = .GET ∧ jsStartsWith p SQL_ROUTE = true) →
        openedProfiles (dispatch ao env).events ⊆ [Profile.READER])
    ∧ ((env.method = .POST ∧ p = "/insert") →
        openedProfiles (dispatch ao env).events ⊆ [Profile.WRITER]) := by
  constructor
  · rintro ⟨hm, -⟩
    rcases dispatch_trace ao env with h | ⟨q, hq, h⟩
    · rw [h]
      simp [openedProfiles]
    · rw [h]
      rcases route_trace (setCorsHeaders ao env.origin) env.db env.method q with
        h2 | ⟨hpost, h2⟩ | ⟨-, sql, h2⟩
      · rw [h2]
        simp [openedProfiles]
      · rw [hm] at hpost
        exact Method.noConfusion hpost
      · rw [h2]
        rcases runSelectQuery_cases env.db sql with ⟨e, he⟩ | ⟨e, he⟩ | ⟨rows, he⟩ <;>
          rw [he] <;> simp [openedProfiles, DbEvent.openedProfile]
  · rintro ⟨hm, -⟩
    rcases dispatch_trace ao env with h | ⟨q, hq, h⟩
    · rw [h]
      simp [openedProfiles]
    · rw [h]
      rcases route_trace (setCorsHeaders ao env.origin) env.db env.method q with
        h2 | ⟨-, h2⟩ | ⟨hget, -⟩
      · rw [h2]
        simp [openedProfiles]
      · rw [h2]
        rcases insertSeedRows_cases env.db with ⟨e, he⟩ | ⟨e, he⟩ | ⟨e, he⟩ | ⟨k, he⟩ <;>
          rw [he] <;> simp [openedProfiles, DbEvent.openedProfile]
      · rw [hm] at hget
        exact Method.noConfusion hget

/-- C2 witness: a concrete client query opens at most the READER profile. -/
theorem C2_witness :
    openedProfiles (dispatch "*" c2Env).events ⊆ [Profile.READER] :=
  (C2_credential_isolation "*" c2Env "/api/v1/sql/SELECT%201" rfl).1 ⟨rfl, rfl⟩

/- ── C3 ─────────────────────────────────────────────────────────────────── -/

/-- C3: on the `GET /api/v1/sql/` route, when the once-decoded tail is
rejected by the guard the response is 403 `{ok:false, error}` with no
database connection opened and no statement executed (the table is left
unchanged); when the guard accepts, the query runs and the response is
200 `{ok:true, rows}` on success or 500 `{ok:false, error}` on failure. -/
theorem C3_sql_route_guard (ao : String) (env : ReqEnv) (p : String)
    (sql : List Char) (hm : env.method = .GET) (hu : env.urlParse = .ok p)
    (hp : jsStartsWith p SQL_ROUTE = true)
    (hdec : jsDecodeURIComponent (sqlTail p) = .ok sql) :
    (isSelectOnlyL sql = false →
        dispatch ao env =
          .response ⟨403, setCorsHeaders ao env.origin, .json rejectJson⟩ []
        ∧ ∀ t, runEvents t (dispatch ao env).events = t)
    ∧ (isSelectOnlyL sql = true →
        (∀ rows evs, runSelectQuery env.db sql = (.ok rows, evs) →
            dispatch ao env =
              .response ⟨200, setCorsHeaders ao env.origin, .json (rowsJson rows)⟩
                evs)
        ∧ (∀ e evs, runSelectQuery env.db sql = (.error e, evs) →
            dispatch ao env =
              .response ⟨500, setCorsHeaders ao env.origin, .json (errJson e)⟩
                evs)) := by
  have hOPT : env.method ≠ .OPTIONS := by
    rw [hm]
    decide
  constructor
  · intro hg
    have hq : route (setCorsHeaders ao env.origin) env.db env.method p
        = (.ok ⟨403, setCorsHeaders ao env.origin, .json rejectJson⟩, []) := by
      rw [route_sql _ _ _ _ hm hp, handleSqlQuery_eq_ok _ _ _ _ hdec,
        handleSqlDecoded_reject _ _ _ hg]
    have hd := dispatch_route_ok ao env p _ [] hOPT hu hq
    refine ⟨hd, ?_⟩
    intro t
    rw [hd]
    rfl
  · intro hg
    constructor
    · intro rows evs hrun
      have hq : route (setCorsHeaders ao env.origin) env.db env.method p
          = (.ok ⟨200, setCorsHeaders ao env.origin, .json (rowsJson rows)⟩, evs) := by
        rw [route_sql _ _ _ _ hm hp, handleSqlQuery_eq_ok _ _ _ _ hdec,
          handleSqlDecoded_run_ok _ _ _ _ _ hg hrun]
      exact dispatch_route_ok ao env p _ evs hOPT hu hq
    · intro e evs hrun
      have hq : route (setCorsHeaders ao env.origin) env.db env.method p
          = (.error e, evs) := by
        rw [route_sql _ _ _ _ hm hp, handleSqlQuery_eq_ok _ _ _ _ hdec,
          handleSqlDecoded_run_err _ _ _ _ _ hg hrun]
      exact dispatch_route_err ao env p e evs hOPT hu hq

/-- C3 witness: the percent-encoded `DELETE FROM patient` is rejected with
403 and an empty event trace. -/
theorem C3_witness :
    dispatch "*" c3Env =
      .response ⟨403, setCorsHeaders "*" none, .json rejectJson⟩ [] :=
  ((C3_sql_route_guard "*" c3Env "/api/v1/sql/DELETE%20FROM%20patient"
      ("DELETE FROM patient".data) rfl rfl rfl rfl).1 rfl).1

end Lab4

namespace Lab4

/- ── C4 ─────────────────────────────────────────────────────────────────── -/

/-- C4 counterexample: URL parsing (`new URL(req.url, ...)`) happens *before*
the try/catch in the handler, so a request whose Host header makes it throw
is not converted into a 500 response — the exception escapes and no response
is written, contradicting the claim that any exception anywhere in dispatch
is caught at the outermost boundary. -/
theorem C4_counterexample :
    dispatch "*" crashEnv = .crash (.typeError "Invalid URL") [] := rfl

/-- C4 (amended): once URL parsing has succeeded, no exception escapes: the
request always gets a response, and any error propagating out of route
matching or handler execution is converted into a 500 `{ok:false, error}`
JSON response by the outermost catch.  (CORS attachment, preflight handling
and URL parsing precede the try, and an exception there escapes uncaught.) -/
theorem C4_amended_boundary (ao : String) (env : ReqEnv) (p : String)
    (hu : env.urlParse = .ok p) :
    (∃ r evs, dispatch ao env = .response r evs)
    ∧ (∀ e evs,
        route (setCorsHeaders ao env.origin) env.db env.method p = (.error e, evs) →
        dispatch ao env =
          .response ⟨500, setCorsHeaders ao env.origin, .json (errJson e)⟩ evs) := by
  by_cases hm : env.method = .OPTIONS
  · constructor
    · exact ⟨_, _, dispatch_eq_OPTIONS ao env hm⟩
    · intro e evs hroute
      rw [route_of_OPTIONS _ _ _ _ hm] at hroute
      injection hroute with h1 h2
      exact Except.noConfusion h1
  · constructor
    · rcases hr : route (setCorsHeaders ao env.origin) env.db env.method p with ⟨res, evs⟩
      rcases res with e | r
      · exact ⟨_, _, dispatch_route_err ao env p e evs hm hu hr⟩
      · exact ⟨_, _, dispatch_route_ok ao env p r evs hm hu hr⟩
    · intro e evs hr
      exact dispatch_route_err ao env p e evs hm hu hr

/-- C4 witness: a failing bulk insert is converted into a 500 JSON response
(with the connection still released — see the event trace). -/
theorem C4_witness :
    dispatch "*" c4Env =
      .response
        ⟨500, setCorsHeaders "*" none, .json (errJson (.dbError "Duplicate entry"))⟩
        [.opened .WRITER, .executed .createPatientTable, .closed .WRITER] :=
  (C4_amended_boundary "*" c4Env "/insert" rfl).2 (.dbError "Duplicate entry")
    [.opened .WRITER, .executed .createPatientTable, .closed .WRITER] rfl

/- ── C5 ─────────────────────────────────────────────────────────────────── -/

/-- C5 counterexample: the query handler of the first server.js document
(lines 83-98, the variant without a `finally`) never opens a database
connection at all — its body references the undeclared identifiers
`dbConfig`/`sqlQuery`, so every call throws a ReferenceError and answers 500
— even against a perfectly healthy database, contradicting the claim that
the query operation opens a fresh connection per call and releases it on
every exit path. -/
theorem C5_counterexample :
    oracleAllOk.openRead = Except.ok ()
    ∧ legacySqlQueryNoFinally oracleAllOk =
        ⟨500, .json (.obj [("error", .str "dbConfig is not defined")]), []⟩ :=
  ⟨rfl, rfl⟩

/-- C5 (amended): `DatabaseService.insertSeedRows` and
`DatabaseService.runSelectQuery` (and the identical server2 inline handlers)
open one fresh connection per call and release it on every exit path — in
every possible trace the number of opens equals the number of closes, and
whenever connecting succeeds exactly one connection is opened. -/
theorem C5_amended_release (db : DbOracle) (sql : List Char) :
    ((insertSeedRows db).2.countP isOpenEv = (insertSeedRows db).2.countP isCloseEv)
    ∧ ((runSelectQuery db sql).2.countP isOpenEv =
        (runSelectQuery db sql).2.countP isCloseEv)
    ∧ (db.openWrite = .ok () → (insertSeedRows db).2.countP isOpenEv = 1)
    ∧ (db.openRead = .ok () → (runSelectQuery db sql).2.countP isOpenEv = 1) := by
  refine ⟨?_, ?_, ?_, ?_⟩
  · rcases insertSeedRows_cases db with ⟨e, he⟩ | ⟨e, he⟩ | ⟨e, he⟩ | ⟨k, he⟩ <;>
      rw [he] <;> rfl
  · rcases runSelectQuery_cases db sql with ⟨e, he⟩ | ⟨e, he⟩ | ⟨rows, he⟩ <;>
      rw [he] <;> rfl
  · intro hw
    unfold insertSeedRows
    rw [hw]
    rcases db.ddl with e | u2
    · rfl
    · rcases db.insert with e | n <;> rfl
  · intro hr2
    unfold runSelectQuery
    rw [hr2]
    rcases db.query sql with e | rows <;> rfl

/-- C5 witness: against a healthy database both operations open exactly one
connection. -/
theorem C5_witness :
    (insertSeedRows oracleAllOk).2.countP isOpenEv = 1
    ∧ (runSelectQuery oracleAllOk ("select 1".data)).2.countP isOpenEv = 1 :=
  ⟨(C5_amended_release oracleAllOk ("select 1".data)).2.2.1 rfl,
   (C5_amended_release oracleAllOk ("select 1".data)).2.2.2 rfl⟩

/- ── C6 ─────────────────────────────────────────────────────────────────── -/

/-- C6: a successful `POST /insert` answers 200 with `ok:true` and a count
field that is exactly whatever the engine reported for the bulk insert —
the theorem holds for every `n`, so the count is not hard-coded to 4; a
failure answers 500 `{ok:false, error}`. -/
theorem C6_insert_contract (ao : String) (env : ReqEnv)
    (hm : env.method = .POST) (hu : env.urlParse = .ok "/insert") :
    (∀ n evs, insertSeedRows env.db = (.ok n, evs) →
        dispatch ao env =
          .response ⟨200, setCorsHeaders ao env.origin, .json (insertOkJson n)⟩ evs)
    ∧ (∀ e evs, insertSeedRows env.db = (.error e, evs) →
        dispatch ao env =
          .response ⟨500, setCorsHeaders ao env.origin, .json (errJson e)⟩ evs) := by
  have hOPT : env.method ≠ .OPTIONS := by
    rw [hm]
    decide
  constructor
  · intro n evs hins
    have hq : route (setCorsHeaders ao env.origin) env.db env.method "/insert"
        = (.ok ⟨200, setCorsHeaders ao env.origin, .json (insertOkJson n)⟩, evs) := by
      rw [route_insert _ _ _ hm, handleInsert_eq_ok _ _ _ _ hins]
    exact dispatch_route_ok ao env "/insert" _ evs hOPT hu hq
  · intro e evs hins
    have hq : route (setCorsHeaders ao env.origin) env.db env.method "/insert"
        = (.error e, evs) := by
      rw [route_insert _ _ _ hm, handleInsert_eq_err _ _ _ _ hins]
    exact dispatch_route_err ao env "/insert" e evs hOPT hu hq

/-- C6 witness: an engine reporting 7 affected rows yields `affectedRows: 7`
in the response — not 4. -/
theorem C6_witness :
    dispatch "*" c6Env =
      .response ⟨200, setCorsHeaders "*" none, .json (insertOkJson 7)⟩
        [.opened .WRITER, .executed .createPatientTable, .executed .seedInsert,
         .closed .WRITER] :=
  (C6_insert_contract "*" c6Env rfl rfl).1 7
    [.opened .WRITER, .executed .createPatientTable, .executed .seedInsert,
     .closed .WRITER] rfl

end Lab4

namespace Lab4

/- ── C7 ─────────────────────────────────────────────────────────────────── -/

/-- C7 counterexample: the legacy server.js handler answers an unmatched
route with a plain-text 404 (`res.end('Not Found')`), not a JSON body with
an `ok` discriminant, contradicting the claim for every response of the
server. -/
theorem C7_counterexample :
    serverJsDispatch c7Env = .response ⟨404, LEGACY_CORS, .text "Not Found"⟩ [] := rfl

/-- C7 (amended): every response of the server2/Router dispatch is either
the 204 empty preflight, the 200 plain-text health check, or a JSON object
carrying a boolean `ok` field; in particular its 404 is the JSON body
`{ok:false, error}`. -/
theorem C7_amended_json_bodies (ao : String) (env : ReqEnv) (r : HttpResponse)
    (evs : List DbEvent) (h : dispatch ao env = .response r evs) :
    ((r.status = 204 ∧ r.body = .empty)
      ∨ (r.status = 200 ∧ r.body = .text healthText)
      ∨ (∃ j, r.body = .json j ∧ hasOkBool j = true))
    ∧ (r.status = 404 → r.body = .json notFoundJson) := by
  rcases dispatch_shape ao env r evs h with
    h1 | h1 | ⟨n, h1⟩ | h1 | ⟨rows, h1⟩ | h1 | ⟨e, h1⟩ <;> subst h1
  · exact ⟨Or.inl ⟨rfl, rfl⟩, fun hc => by simp at hc⟩
  · exact ⟨Or.inr (Or.inl ⟨rfl, rfl⟩), fun hc => by simp at hc⟩
  · exact ⟨Or.inr (Or.inr ⟨insertOkJson n, rfl, rfl⟩), fun hc => by simp at hc⟩
  · exact ⟨Or.inr (Or.inr ⟨rejectJson, rfl, rfl⟩), fun hc => by simp at hc⟩
  · exact ⟨Or.inr (Or.inr ⟨rowsJson rows, rfl, rfl⟩), fun hc => by simp at hc⟩
  · exact ⟨Or.inr (Or.inr ⟨notFoundJson, rfl, rfl⟩), fun _ => rfl⟩
  · exact ⟨Or.inr (Or.inr ⟨errJson e, rfl, rfl⟩), fun hc => by simp at hc⟩

/-- C7 witness: the Router's 404 response for an unmatched route carries the
JSON `{ok:false, error}` body. -/
theorem C7_witness :
    (HttpResponse.mk 404 (setCorsHeaders "*" none) (.json notFoundJson)).body
      = .json notFoundJson :=
  (C7_amended_json_bodies "*" c7Env
      ⟨404, setCorsHeaders "*" none, .json notFoundJson⟩ [] rfl).2 rfl

/- ── C8 ─────────────────────────────────────────────────────────────────── -/

/-- C8 counterexample: `isSelectOnly` (server2) has no guard before
`sql.trim()`, so invoking it with an `undefined` argument raises a
TypeError instead of returning false. -/
theorem C8_counterexample :
    isSelectOnlyJS none =
      .error (.typeError "Cannot read properties of undefined (reading trim)") := rfl

/-- C8 (amended): both guards return false on the empty string, and
`isQuerySafe` (server.js) returns false on an undefined argument; but
`isSelectOnly` raises a TypeError on an undefined argument (see the
counterexample). -/
theorem C8_amended_degenerate :
    isSelectOnly "" = false
    ∧ isSelectOnlyJS (some "") = .ok false
    ∧ isQuerySafe none = .ok false
    ∧ isQuerySafe (some "") = .ok false :=
  ⟨rfl, rfl, rfl, rfl⟩

/- ── C9 ─────────────────────────────────────────────────────────────────── -/

/-- C9 counterexample: with a configured allow-list origin and a
non-matching request origin, `setCors` falls back to the configured value —
a value that is neither the wildcard nor the reflected request origin, which
the claim says can never be sent. -/
theorem C9_counterexample :
    corsAllowValue "https://allowed.example" (some "https://evil.example") =
        "https://allowed.example"
    ∧ "https://allowed.example" ≠ "*"
    ∧ "https://allowed.example" ≠ "https://evil.example" :=
  ⟨rfl, by decide, by decide⟩

/-- C9 (amended): the `Access-Control-Allow-Origin` value is `*` exactly
when the configured origin is the wildcard, and otherwise is always the
configured allow-list value (which coincides with the request origin
precisely when they match); every response of the dispatch carries the CORS
header set computed up front, including `Vary: Origin`,
`Access-Control-Allow-Methods: GET,POST,OPTIONS` and
`Access-Control-Allow-Headers: Content-Type`. -/
theorem C9_amended_cors (ao : String) (ro : Option String) (env : ReqEnv)
    (r : HttpResponse) (evs : List DbEvent) :
    corsAllowValue ao ro = (if ao = "*" then "*" else ao)
    ∧ (setCorsHeaders ao ro).vary = some "Origin"
    ∧ (setCorsHeaders ao ro).allowMethods = "GET,POST,OPTIONS"
    ∧ (setCorsHeaders ao ro).allowHeaders = "Content-Type"
    ∧ (dispatch ao env = .response r evs → r.cors = setCorsHeaders ao env.origin) := by
  refine ⟨?_, rfl, rfl, rfl, ?_⟩
  · unfold corsAllowValue
    by_cases hw : ao = "*"
    · rw [if_pos hw, if_pos hw]
    · rw [if_neg hw, if_neg hw]
      cases ro with
      | none => rfl
      | some o =>
        show (if o ≠ "" ∧ o = ao then o else ao) = ao
        by_cases ho : o ≠ "" ∧ o = ao
        · rw [if_pos ho]
          exact ho.2
        · rw [if_neg ho]
  · intro h
    rcases dispatch_shape ao env r evs h with
      h1 | h1 | ⟨n, h1⟩ | h1 | ⟨rows, h1⟩ | h1 | ⟨e, h1⟩ <;> subst h1 <;> rfl

/-- C9 witness: the health-check response of a concrete request carries the
computed CORS header set. -/
theorem C9_witness :
    (HttpResponse.mk 200 (setCorsHeaders "*" (some "https://site.example"))
        (.text healthText)).cors
      = setCorsHeaders "*" (some "https://site.example") :=
  (C9_amended_cors "*" (some "https://site.example") c9Env
      ⟨200, setCorsHeaders "*" (some "https://site.example"), .text healthText⟩
      []).2.2.2.2 rfl

/- ── C10 ────────────────────────────────────────────────────────────────── -/

/-- C10: seeding is additive, not idempotent.  Every successful
`POST /insert` request appends exactly the four fixed seed rows to the
table (the bulk INSERT has no upsert/dedup clause), and n applications of
that effect leave the table with its original rows followed by n copies of
the seed block — 4·n new rows, so two invocations append 8 rows, not 4. -/
theorem C10_seed_additive (ao : String) (env : ReqEnv) (r : HttpResponse)
    (evs : List DbEvent) (t : List (String × String)) (n : Nat) :
    (env.method = .POST → env.urlParse = .ok "/insert" →
        dispatch ao env = .response r evs → r.status = 200 →
        runEvents t evs = seedAppend t)
    ∧ (seedAppend^[n] t = t ++ (List.replicate n SEED_ROWS).flatten
        ∧ (seedAppend^[n] t).length = t.length + 4 * n) := by
  constructor
  · intro hm hu hdisp hst
    have hOPT : env.method ≠ .OPTIONS := by
      rw [hm]
      decide
    rcases hins : insertSeedRows env.db with ⟨res, evs2⟩
    rcases res with e | k
    · have hq : route (setCorsHeaders ao env.origin) env.db env.method "/insert"
          = (.error e, evs2) := by
        rw [route_insert _ _ _ hm, handleInsert_eq_err _ _ _ _ hins]
      have hd := dispatch_route_err ao env "/insert" e evs2 hOPT hu hq
      rw [hdisp] at hd
      injection hd with h1 h2
      rw [h1] at hst
      simp at hst
    · have hq : route (setCorsHeaders ao env.origin) env.db env.method "/insert"
          = (.ok ⟨200, setCorsHeaders ao env.origin, .json (insertOkJson k)⟩, evs2) := by
        rw [route_insert _ _ _ hm, handleInsert_eq_ok _ _ _ _ hins]
      have hd := dispatch_route_ok ao env "/insert" _ evs2 hOPT hu hq
      rw [hdisp] at hd
      injection hd with h1 h2
      have htr := insertSeedRows_ok_trace env.db k evs2 hins
      rw [h2, htr]
      rfl
  · induction n with
    | zero => simp
    | succ m ih =>
      obtain ⟨ih1, ih2⟩ := ih
      constructor
      · rw [Function.iterate_succ_apply', ih1]
        simp [seedAppend, List.replicate_succ', List.flatten_append, List.append_assoc]
      · rw [Function.iterate_succ_apply']
        simp only [seedAppend, List.length_append, ih2, SEED_ROWS, List.length_cons,
          List.length_nil]
        omega

/-- C10 witness: one successful seed request appends the four seed rows to
an empty table. -/
theorem C10_witness :
    runEvents []
        [.opened .WRITER, .executed .createPatientTable, .executed .seedInsert,
         .closed .WRITER]
      = seedAppend [] :=
  (C10_seed_additive "*" c10Env
      ⟨200, setCorsHeaders "*" none, .json (insertOkJson 4)⟩
      [.opened .WRITER, .executed .createPatientTable, .executed .seedInsert,
       .closed .WRITER] [] 0).1 rfl rfl rfl rfl

end Lab4
